import Mathlib

/-!
Verification of the client-side authorization gate of the cf-admin
dashboard (src/hooks/useAuth.tsx, src/components/ProtectedRoute.tsx,
src/pages/Login.tsx) and of the favorite-partnership toggle
(PartnershipsDrawer).  The TypeScript procedures are shallowly embedded
as pure Lean functions over explicit state; the remote collaborators
(supabase auth / rpc) are modelled as a deterministic outcome record.
-/

/-- JavaScript/JSON values as far as the authorization code inspects
them: the `is_cf` metadata entry, the rpc result and the cached
localStorage value.  Arrays and objects are omitted: the code only ever
tests truthiness and compares against `null`, and the values flowing
through these slots are scalars. -/
inductive Json where
  | null
  | bool (b : Bool)
  | num (n : Int)
  | str (s : String)
deriving DecidableEq, Repr

/-- JavaScript truthiness (`Boolean(x)` / `!x`) restricted to `Json`. -/
def Json.truthy : Json → Bool
  | .null => false
  | .bool b => b
  | .num n => n != 0
  | .str s => s != ""

/-- Abstraction of the raw string held in the `isCfUser` localStorage
slot: every concrete string either parses (`JSON.parse`) to exactly one
JSON value or throws a `SyntaxError`; `JSON.parse (JSON.stringify j) = j`.
We therefore model the stored string by the outcome of parsing it. -/
inductive StoredString where
  | json (j : Json)
  | corrupt
deriving DecidableEq, Repr

/-- Model of `JSON.parse` on a stored string: `none` models a thrown `SyntaxError`. -/
def jsonParse : StoredString → Option Json
  | .json j => some j
  | .corrupt => none

/-- Model of `JSON.stringify` of a scalar JSON value. -/
def jsonStringify (j : Json) : StoredString := .json j

/-- The slice of a supabase `User` the gate reads:
`user.user_metadata.is_cf` (`none` = the property is absent). -/
structure UserRec where
  is_cf_meta : Option Json
deriving DecidableEq, Repr

/-- The slice of a supabase `Session` the gate reads: its user. -/
structure SessionRec where
  user : UserRec
deriving DecidableEq, Repr

/-- The React state owned by `AuthProvider`:
`user`, `session`, `loading`, `isCfUser` (`none` models JS `null`). -/
structure AuthState where
  user : Option UserRec
  session : Option SessionRec
  loading : Bool
  isCfUser : Option Bool
deriving DecidableEq, Repr

/-- Outcome of `await supabase.rpc('is_cf')`: the awaited promise either
rejects, or resolves to `{ data, error }` (`hasError` is the truthiness
of `error`). -/
inductive RpcOutcome where
  | reject
  | result (hasError : Bool) (data : Json)
deriving DecidableEq, Repr

/-- Deterministic outcomes of the remote collaborators during one run:
the `is_cf` rpc, `supabase.auth.updateUser` and
`supabase.auth.signOut({scope:'local'})` (`true` = the awaited call
resolves, `false` = it rejects). -/
structure Env where
  rpc : RpcOutcome
  updateUserOk : Bool
  signOutLocalOk : Bool
deriving DecidableEq, Repr

/-- Model of the read `JSON.parse(localStorage.getItem(key) ?? the-null-literal)`:
an absent slot parses as the literal `null`. -/
def rawCacheParse : Option StoredString → Option Json
  | none => some Json.null
  | some s => jsonParse s

/-- The `cached` expression
`meta?.is_cf ?? JSON.parse(localStorage.getItem('isCfUser') ?? 'null')`:
a nullish (`undefined` or `null`) metadata entry falls through to the
localStorage read, which may throw (`none`). -/
def cachedRead (meta : Option Json) (cache : Option StoredString) :
    Option Json :=
  match meta with
  | some v => if v = Json.null then rawCacheParse cache else some v
  | none => rawCacheParse cache

/-- Result of one run of an auth procedure: the React state, the
localStorage slot, whether the `is_cf` rpc was invoked, and whether an
exception escaped the procedure. -/
structure RunResult where
  st : AuthState
  cache : Option StoredString
  rpcCalled : Bool
  threw : Bool
deriving DecidableEq, Repr

/-- The `catch` block shared by both remote-check paths of `useAuth`:
`await supabase.auth.signOut({scope:'local'}); localStorage.removeItem('isCfUser');
toast.error(...); setIsCfUser(false)`.  When the local sign-out itself
rejects, the exception escapes this block before the cache is removed. -/
def cfCheckCatch (env : Env) (st : AuthState) (cache : Option StoredString) :
    (AuthState × Option StoredString) × Bool :=
  if env.signOutLocalOk then
    (({ st with isCfUser := some false }, none), false)
  else
    ((st, cache), true)

/-- View the init bootstrap takes of the shared catch block: if the local sign-out inside
the `catch` rejects, the exception is caught by `init`'s outer `catch`
(`setIsCfUser(false)`); either way the `finally` sets `loading := false`. -/
def initCatch (env : Env) (st : AuthState) (cache : Option StoredString) :
    AuthState × Option StoredString :=
  match cfCheckCatch env st cache with
  | ((st2, cache2), esc) =>
    ({ st2 with
        isCfUser := if esc then some false else st2.isCfUser,
        loading := false },
     cache2)

/-- The handler's view of the shared catch block: if the local sign-out
inside the `catch` rejects, the exception escapes the handler and
`setLoading(false)` (line 107) never runs. -/
def handlerCatch (env : Env) (st : AuthState) (cache : Option StoredString) :
    (AuthState × Option StoredString) × Bool :=
  match cfCheckCatch env st cache with
  | ((st2, cache2), esc) =>
    (({ st2 with loading := if esc then st2.loading else false }, cache2), esc)

/-- The `init` bootstrap of `AuthProvider` (useAuth.tsx lines 24–67).
`gs` is the outcome of `await supabase.auth.getSession()`
(`none` = the await rejected).  The outer `try` converts every escaped
exception into `setIsCfUser(false)`, and the `finally` always sets
`loading` to `false`, so `init` itself never throws. -/
def initRun (env : Env) (gs : Option (Option SessionRec))
    (st : AuthState) (cache : Option StoredString) : RunResult :=
  match gs with
  | none =>
    { st := { st with isCfUser := some false, loading := false },
      cache := cache, rpcCalled := false, threw := false }
  | some session =>
    let st1 : AuthState :=
      { st with session := session, user := session.map (·.user) }
    match cachedRead (session.bind (·.user.is_cf_meta)) cache with
    | none =>
      -- JSON.parse threw; caught by the outer catch
      { st := { st1 with isCfUser := some false, loading := false },
        cache := cache, rpcCalled := false, threw := false }
    | some c =>
      match session with
      | none =>
        { st := { st1 with isCfUser := some false, loading := false },
          cache := cache, rpcCalled := false, threw := false }
      | some _ =>
        if c ≠ Json.null then
          { st := { st1 with isCfUser := some c.truthy, loading := false },
            cache := cache, rpcCalled := false, threw := false }
        else
          match env.rpc with
          | .reject =>
            let (st2, cache2) := initCatch env st1 cache
            { st := st2, cache := cache2, rpcCalled := true, threw := false }
          | .result hasError data =>
            if hasError || !data.truthy then
              let (st2, cache2) := initCatch env st1 cache
              { st := st2, cache := cache2, rpcCalled := true, threw := false }
            else
              let st2 : AuthState := { st1 with isCfUser := some data.truthy }
              if env.updateUserOk then
                { st := { st2 with loading := false },
                  cache := some (jsonStringify data),
                  rpcCalled := true, threw := false }
              else
                let (st3, cache3) := initCatch env st2 cache
                { st := st3, cache := cache3, rpcCalled := true, threw := false }

/-- One invocation of the `onAuthStateChange` callback of `AuthProvider`
(useAuth.tsx lines 73–108) with the delivered `session`.  Unlike `init`
there is no surrounding try/finally: a `JSON.parse` throw, or a
rejection of the local sign-out inside the `catch`, escapes the handler
(`threw = true`) before `setLoading(false)` runs. -/
def onAuthStateChangeRun (env : Env) (session : Option SessionRec)
    (st : AuthState) (cache : Option StoredString) : RunResult :=
  let st1 : AuthState :=
    { st with session := session, user := session.map (·.user) }
  match session with
  | some s =>
    match cachedRead s.user.is_cf_meta cache with
    | none =>
      { st := st1, cache := cache, rpcCalled := false, threw := true }
    | some c =>
      if c ≠ Json.null then
        { st := { st1 with isCfUser := some c.truthy, loading := false },
          cache := cache, rpcCalled := false, threw := false }
      else
        match env.rpc with
        | .reject =>
          let ((st2, cache2), esc) := handlerCatch env st1 cache
          { st := st2, cache := cache2, rpcCalled := true, threw := esc }
        | .result hasError data =>
          if hasError || !data.truthy then
            let ((st2, cache2), esc) := handlerCatch env st1 cache
            { st := st2, cache := cache2, rpcCalled := true, threw := esc }
          else
            let st2 : AuthState := { st1 with isCfUser := some true }
            if env.updateUserOk then
              { st := { st2 with loading := false },
                cache := some (jsonStringify data),
                rpcCalled := true, threw := false }
            else
              let ((st3, cache3), esc) := handlerCatch env st2 cache
              { st := st3, cache := cache3, rpcCalled := true, threw := esc }
  | none =>
    { st := { st1 with isCfUser := none, loading := false },
      cache := none, rpcCalled := false, threw := false }

/-- The `signOut` operation of `AuthProvider` (useAuth.tsx lines 123–136):
the remote local-scope sign-out is attempted inside a `try` whose `catch`
only logs, and the `finally` unconditionally resets `user`, `session`,
`isCfUser` and removes the cache slot — so the result does not depend on
whether the remote call rejects. -/
def signOutRun (st : AuthState) (_cache : Option StoredString) :
    AuthState × Option StoredString :=
  ({ st with user := none, session := none, isCfUser := none }, none)

/-- Possible render outputs of the two page-level components. -/
inductive Render where
  | spinner
  | redirectLogin
  | redirectDashboard
  | content
  | loginForm
deriving DecidableEq, Repr

/-- The render decision of `ProtectedRoute`
(src/components/ProtectedRoute.tsx lines 9–40): loading spinner, then a
redirect to `/login` when there is no user, then a spinner while
`isCfUser === null`, then a redirect when `isCfUser === false`, else the
protected children. -/
def protectedRouteRender (loading : Bool) (user : Option UserRec)
    (isCfUser : Option Bool) : Render :=
  if loading then .spinner
  else if user = none then .redirectLogin
  else if isCfUser = none then .spinner
  else if isCfUser = some false then .redirectLogin
  else .content

/-- The render decision of the `Login` page (src/pages/Login.tsx
lines 24–26): a redirect to `/dashboard` whenever `user` is present,
otherwise the login form; it consults nothing but `user`. -/
def loginPageRender (user : Option UserRec) : Render :=
  if user.isSome then .redirectDashboard else .loginForm

/-- A row of the `partnerships` table as the drawer updates it. -/
structure Partnership where
  restaurant_id : String
  osc_id : String
  is_favorite : Bool
deriving DecidableEq, Repr

/-- The `toggleFavoriteMutation` of `PartnershipsDrawer`
(lines 173–200): when `isFavorite` is `true` it first updates
`is_favorite := false` on every row with the given `restaurant_id`, and
then updates `is_favorite := isFavorite` on the rows matching both
`restaurant_id` and `osc_id`. -/
def toggleFavoriteRun (restaurantId oscId : String) (isFavorite : Bool)
    (rows : List Partnership) : List Partnership :=
  let rows1 :=
    if isFavorite then
      rows.map fun p =>
        if p.restaurant_id = restaurantId then { p with is_favorite := false }
        else p
    else rows
  rows1.map fun p =>
    if p.restaurant_id = restaurantId ∧ p.osc_id = oscId then
      { p with is_favorite := isFavorite }
    else p

/-- The rows the restaurant currently marks favorite. -/
def favCount (restaurantId : String) (rows : List Partnership) : Nat :=
  (rows.filter fun p =>
    p.restaurant_id == restaurantId && p.is_favorite).length

/-- The at-most-one-favorite invariant for one restaurant. -/
def atMostOneFavorite (restaurantId : String)
    (rows : List Partnership) : Prop :=
  favCount restaurantId rows ≤ 1

/-- Whether the `error || !isCf` test of the remote check fails the run
(also covering a rejected await). -/
def rpcFailed : RpcOutcome → Bool
  | .reject => true
  | .result hasError data => hasError || !data.truthy

/-- The authorization decision that both `init` and the
`onAuthStateChange` handler compute for a present session once the
cached read produced `c` (which both do whenever the local sign-out of
the error path resolves): a non-`null` cached value is coerced with
`Boolean`, otherwise the remote check decides, with every failure —
including a failed `updateUser` — collapsing to `false`. -/
def resolveDecision (env : Env) (c : Json) : Bool :=
  if c ≠ Json.null then c.truthy
  else
    match env.rpc with
    | .reject => false
    | .result hasError data =>
      if hasError || !data.truthy then false
      else env.updateUserOk

/-- The localStorage slot both procedures leave behind in the same
situation: untouched on a cached answer, the stringified rpc data after
a fully successful check, removed on any failure of the check. -/
def resolveCache (env : Env) (c : Json) (cache : Option StoredString) :
    Option StoredString :=
  if c ≠ Json.null then cache
  else
    match env.rpc with
    | .reject => none
    | .result hasError data =>
      if hasError || !data.truthy then none
      else if env.updateUserOk then some (jsonStringify data)
      else none

/-! ### Characterization of the two resolution paths on a present session -/

/-- The run result both `init` and the handler produce for session `s`
when the cached read yields `c` and the error-path sign-out resolves. -/
def resolvedResult (env : Env) (st : AuthState) (cache : Option StoredString)
    (s : SessionRec) (c : Json) : RunResult :=
  { st := { st with
              session := some s,
              user := some s.user,
              isCfUser := some (resolveDecision env c),
              loading := false },
    cache := resolveCache env c cache,
    rpcCalled := decide (c = Json.null),
    threw := false }

/-! ### Sample values used by concrete witnesses and counterexamples -/

/-- An environment in which every remote call succeeds and the rpc
returns `true`. -/
def happyEnv : Env :=
  { rpc := .result false (Json.bool true), updateUserOk := true,
    signOutLocalOk := true }

/-- A user with no `is_cf` entry in its metadata. -/
def plainUser : UserRec := { is_cf_meta := none }

/-- A session for `plainUser`. -/
def plainSession : SessionRec := { user := plainUser }

/-- The initial React state of `AuthProvider`. -/
def initialAuthState : AuthState :=
  { user := none, session := none, loading := true, isCfUser := none }

/-- An environment in which the rpc answers `true` but the
user-metadata update rejects. -/
def metaFailEnv : Env :=
  { rpc := .result false (Json.bool true), updateUserOk := false,
    signOutLocalOk := true }

/-- A resolved signed-in authorized state, as left by a successful
bootstrap. -/
def signedInState : AuthState :=
  { user := some plainUser, session := some plainSession,
    loading := false, isCfUser := some true }

/-- A session whose user metadata says `is_cf = false`. -/
def nonCfSession : SessionRec := { user := { is_cf_meta := some (Json.bool false) } }

/-- A session whose user metadata holds the non-boolean value `0` in
its `is_cf` entry. -/
def zeroMetaSession : SessionRec := { user := { is_cf_meta := some (Json.num 0) } }

theorem initRun_present (env : Env) (st : AuthState) (cache : Option StoredString)
    (s : SessionRec) (c : Json)
    (hc : cachedRead s.user.is_cf_meta cache = some c)
    (hso : env.signOutLocalOk = true) :
    initRun env (some (some s)) st cache = resolvedResult env st cache s c := by
  simp only [initRun, resolvedResult, Option.bind_some]
  rw [show ((some s : Option SessionRec).bind (·.user.is_cf_meta)) = s.user.is_cf_meta from rfl, hc]
  by_cases hnull : c = Json.null
  · subst hnull
    simp only [resolveDecision, resolveCache, ne_eq, not_true_eq_false, if_false, decide_True]
    cases hr : env.rpc with
    | reject =>
      simp [initCatch, cfCheckCatch, hso]
    | result hasError data =>
      by_cases hfail : (hasError || !data.truthy) = true
      · simp [hfail, initCatch, cfCheckCatch, hso]
      · simp only [Bool.not_eq_true] at hfail
        obtain ⟨he, htr0⟩ := Bool.or_eq_false_iff.mp hfail
        have htr : data.truthy = true := by simpa using htr0
        by_cases hup : env.updateUserOk = true
        · simp [hfail, hup, htr, he]
        · simp only [Bool.not_eq_true] at hup
          simp [hfail, hup, htr, he, initCatch, cfCheckCatch, hso]
  · simp [hnull, resolveDecision, resolveCache]

theorem handlerRun_present (env : Env) (st : AuthState)
    (cache : Option StoredString) (s : SessionRec) (c : Json)
    (hc : cachedRead s.user.is_cf_meta cache = some c)
    (hso : env.signOutLocalOk = true) :
    onAuthStateChangeRun env (some s) st cache =
      resolvedResult env st cache s c := by
  simp only [onAuthStateChangeRun, resolvedResult, Option.map_some']
  rw [hc]
  by_cases hnull : c = Json.null
  · subst hnull
    simp only [resolveDecision, resolveCache, ne_eq, not_true_eq_false,
      if_false, decide_True]
    cases hr : env.rpc with
    | reject =>
      simp [handlerCatch, cfCheckCatch, hso]
    | result hasError data =>
      by_cases hfail : (hasError || !data.truthy) = true
      · simp [hfail, handlerCatch, cfCheckCatch, hso]
      · simp only [Bool.not_eq_true] at hfail
        obtain ⟨he, htr0⟩ := Bool.or_eq_false_iff.mp hfail
        have htr : data.truthy = true := by simpa using htr0
        by_cases hup : env.updateUserOk = true
        · simp [hfail, hup, htr, he]
        · simp only [Bool.not_eq_true] at hup
          simp [hfail, hup, htr, he, handlerCatch, cfCheckCatch, hso]
  · simp [hnull, resolveDecision, resolveCache]

theorem initRun_cachedHit (env : Env) (st : AuthState)
    (cache : Option StoredString) (s : SessionRec) (c : Json)
    (hc : cachedRead s.user.is_cf_meta cache = some c)
    (hnn : c ≠ Json.null) :
    initRun env (some (some s)) st cache = resolvedResult env st cache s c := by
  simp only [initRun, resolvedResult, Option.map_some']
  rw [show ((some s : Option SessionRec).bind (·.user.is_cf_meta)) = s.user.is_cf_meta from rfl, hc]
  simp [hnn, resolveDecision, resolveCache]

theorem handlerRun_cachedHit (env : Env) (st : AuthState)
    (cache : Option StoredString) (s : SessionRec) (c : Json)
    (hc : cachedRead s.user.is_cf_meta cache = some c)
    (hnn : c ≠ Json.null) :
    onAuthStateChangeRun env (some s) st cache =
      resolvedResult env st cache s c := by
  simp only [onAuthStateChangeRun, resolvedResult, Option.map_some']
  rw [hc]
  simp [hnn, resolveDecision, resolveCache]

/-- Re-reading the cache a resolution run leaves behind yields a value
on which a second run decides identically and leaves the slot alone. -/
theorem resolve_stable (env : Env) (s : SessionRec)
    (cache : Option StoredString) (c : Json)
    (hc : cachedRead s.user.is_cf_meta cache = some c) :
    ∃ c', cachedRead s.user.is_cf_meta (resolveCache env c cache) = some c' ∧
      resolveDecision env c' = resolveDecision env c ∧
      resolveCache env c' (resolveCache env c cache) =
        resolveCache env c cache := by
  by_cases hnull : c = Json.null
  case neg =>
    refine ⟨c, ?_, rfl, ?_⟩
    · rw [show resolveCache env c cache = cache by simp [resolveCache, hnull]]
      exact hc
    · simp [resolveCache, hnull]
  case pos =>
    subst hnull
    have hmeta : ∀ cc : Option StoredString,
        cachedRead s.user.is_cf_meta cc = rawCacheParse cc := by
      intro cc
      rcases hm : s.user.is_cf_meta with _ | v
      · simp [cachedRead]
      · by_cases hv : v = Json.null
        · simp [cachedRead, hv]
        · have h2 := hc
          rw [cachedRead.eq_def] at h2
          simp only [hm, hv, if_false] at h2
          exact absurd (Option.some_injective _ h2) hv
    rcases hr : env.rpc with _ | ⟨hasError, data⟩
    · exact ⟨Json.null, by simp [hmeta, resolveCache, hr, rawCacheParse],
        rfl, by simp [resolveCache, hr]⟩
    · by_cases hfail : (hasError || !data.truthy) = true
      · exact ⟨Json.null,
          by simp [hmeta, resolveCache, hr, hfail, rawCacheParse],
          rfl, by simp [resolveCache, hr, hfail]⟩
      · simp only [Bool.not_eq_true] at hfail
        obtain ⟨he, htr0⟩ := Bool.or_eq_false_iff.mp hfail
        have htr : data.truthy = true := by simpa using htr0
        have hdn : data ≠ Json.null := by
          intro h
          rw [h] at htr
          exact absurd htr (by simp [Json.truthy])
        by_cases hup : env.updateUserOk = true
        · refine ⟨data, ?_, ?_, ?_⟩
          · simp [hmeta, resolveCache, hr, he, htr, hup, rawCacheParse,
              jsonStringify, jsonParse]
          · simp [resolveDecision, hdn, hr, he, htr, hup]
          · simp [resolveCache, hdn, hr, he, htr, hup]
        · simp only [Bool.not_eq_true] at hup
          exact ⟨Json.null,
            by simp [hmeta, resolveCache, hr, he, htr, hup, rawCacheParse],
            rfl, by simp [resolveCache, hr, he, htr, hup]⟩

/-! ### Claims -/

/-- C6 counterexample: a session whose metadata holds the non-boolean
`0` in `is_cf` while the Authorization Cache holds the definite boolean
`true`.  The `??` operator does not fall through on `0` (only on
null/undefined), so `cached = 0`, the `cached !== null` test passes,
and both resolution paths resolve `setIsCfUser(Boolean(0))`, that is
`isCfUser = some false` — the cached boolean `true` is never consulted,
refuting the claim that the decision is set to that boolean whenever
the cache holds one. -/
theorem c6_counterexample :
    (initRun happyEnv (some (some zeroMetaSession)) initialAuthState
        (some (StoredString.json (Json.bool true)))).st.isCfUser = some false ∧
    (initRun happyEnv (some (some zeroMetaSession)) initialAuthState
        (some (StoredString.json (Json.bool true)))).st.isCfUser ≠ some true ∧
    (initRun happyEnv (some (some zeroMetaSession)) initialAuthState
        (some (StoredString.json (Json.bool true)))).rpcCalled = false ∧
    (onAuthStateChangeRun happyEnv (some zeroMetaSession) initialAuthState
        (some (StoredString.json (Json.bool true)))).st.isCfUser = some false ∧
    (onAuthStateChangeRun happyEnv (some zeroMetaSession) initialAuthState
        (some (StoredString.json (Json.bool true)))).st.isCfUser ≠ some true := by
  decide

/-- C6 amended: for every session whose user metadata carries a definite
`is_cf` boolean, or whose metadata entry is nullish (absent or `null`)
while the Authorization Cache holds a definite boolean, both resolution
paths set `isCfUser` to that boolean (the metadata value taking
precedence), set `loading` to `false`, and never invoke the `is_cf`
rpc.  A non-nullish non-boolean metadata entry, however, shadows the
cache and is itself coerced with `Boolean` (see the counterexample). -/
theorem c6_amended_cached_short_circuit (env : Env) (st : AuthState)
    (cache : Option StoredString) (s : SessionRec) (b : Bool)
    (h : s.user.is_cf_meta = some (Json.bool b) ∨
      ((s.user.is_cf_meta = none ∨ s.user.is_cf_meta = some Json.null) ∧
        cache = some (StoredString.json (Json.bool b)))) :
    ((initRun env (some (some s)) st cache).st.isCfUser = some b ∧
      (initRun env (some (some s)) st cache).st.loading = false ∧
      (initRun env (some (some s)) st cache).rpcCalled = false) ∧
    ((onAuthStateChangeRun env (some s) st cache).st.isCfUser = some b ∧
      (onAuthStateChangeRun env (some s) st cache).st.loading = false ∧
      (onAuthStateChangeRun env (some s) st cache).rpcCalled = false) := by
  have hc : cachedRead s.user.is_cf_meta cache = some (Json.bool b) := by
    rcases h with hm | ⟨hm, hcache⟩
    · simp [cachedRead, hm]
    · rcases hm with hm | hm <;>
        simp [cachedRead, hm, hcache, rawCacheParse, jsonParse]
  have hnn : (Json.bool b) ≠ Json.null := by simp
  rw [initRun_cachedHit env st cache s (Json.bool b) hc hnn,
    handlerRun_cachedHit env st cache s (Json.bool b) hc hnn]
  simp [resolvedResult, resolveDecision, hnn, Json.truthy]

/-- Witness for C6 amended at two concrete inputs: metadata
`is_cf = true` with an empty cache (first disjunct), and a
metadata-free session with the cache holding `true` (second
disjunct). -/
theorem c6_witness :
    ((initRun happyEnv (some (some { user := { is_cf_meta := some (Json.bool true) } }))
        initialAuthState none).st.isCfUser = some true ∧
      (initRun happyEnv (some (some { user := { is_cf_meta := some (Json.bool true) } }))
        initialAuthState none).st.loading = false ∧
      (initRun happyEnv (some (some { user := { is_cf_meta := some (Json.bool true) } }))
        initialAuthState none).rpcCalled = false) ∧
    ((onAuthStateChangeRun happyEnv (some { user := { is_cf_meta := some (Json.bool true) } })
        initialAuthState none).st.isCfUser = some true ∧
      (onAuthStateChangeRun happyEnv (some { user := { is_cf_meta := some (Json.bool true) } })
        initialAuthState none).st.loading = false ∧
      (onAuthStateChangeRun happyEnv (some { user := { is_cf_meta := some (Json.bool true) } })
        initialAuthState none).rpcCalled = false) ∧
    ((initRun happyEnv (some (some plainSession)) initialAuthState
        (some (StoredString.json (Json.bool true)))).st.isCfUser = some true ∧
      (initRun happyEnv (some (some plainSession)) initialAuthState
        (some (StoredString.json (Json.bool true)))).rpcCalled = false) ∧
    ((onAuthStateChangeRun happyEnv (some plainSession) initialAuthState
        (some (StoredString.json (Json.bool true)))).st.isCfUser = some true ∧
      (onAuthStateChangeRun happyEnv (some plainSession) initialAuthState
        (some (StoredString.json (Json.bool true)))).rpcCalled = false) :=
  have h1 := c6_amended_cached_short_circuit happyEnv initialAuthState none
    { user := { is_cf_meta := some (Json.bool true) } } true (Or.inl rfl)
  have h2 := c6_amended_cached_short_circuit happyEnv initialAuthState
    (some (StoredString.json (Json.bool true))) plainSession true
    (Or.inr ⟨Or.inl rfl, rfl⟩)
  ⟨h1.1, h1.2, ⟨h2.1.1, h2.1.2.2⟩, ⟨h2.2.1, h2.2.2.2⟩⟩

/-- C8: when the bootstrap finds no current session, `isCfUser` resolves
to `false`, `loading` becomes `false`, and the `is_cf` rpc is never
invoked on that run, whatever the cache holds. -/
theorem c8_fail_closed_no_session (env : Env) (st : AuthState)
    (cache : Option StoredString) :
    (initRun env (some none) st cache).st.isCfUser = some false ∧
    (initRun env (some none) st cache).st.loading = false ∧
    (initRun env (some none) st cache).rpcCalled = false := by
  rcases cache with _ | (j | _) <;> exact ⟨rfl, rfl, rfl⟩

/-- Witness for C8 at a concrete input: no session, corrupt cache. -/
theorem c8_witness :
    (initRun happyEnv (some none) initialAuthState
        (some StoredString.corrupt)).st.isCfUser = some false ∧
    (initRun happyEnv (some none) initialAuthState
        (some StoredString.corrupt)).st.loading = false ∧
    (initRun happyEnv (some none) initialAuthState
        (some StoredString.corrupt)).rpcCalled = false :=
  c8_fail_closed_no_session happyEnv initialAuthState (some StoredString.corrupt)

/-- C7 counterexample: with the absent-session input, running the
bootstrap path alone leaves `isCfUser = some false`, but running the
bootstrap and then the session-change path (same absent-session input)
leaves `isCfUser = none` — the two entry points are not
order-independent on the absent-session input. -/
theorem c7_counterexample :
    (onAuthStateChangeRun happyEnv none
        (initRun happyEnv (some none) initialAuthState none).st
        (initRun happyEnv (some none) initialAuthState none).cache).st.isCfUser ≠
      (initRun happyEnv (some none) initialAuthState none).st.isCfUser := by
  decide

/-- C7 amended: for a present session, provided the cached read does not
throw and the error-path local sign-out resolves, the bootstrap path and
the session-change path compute the same final `{isCfUser, loading}`,
and running one after the other (in either order) leaves the same final
`{isCfUser, loading}` as running either alone.  The absent-session input
is excluded: there the bootstrap sets `isCfUser = false` while the
handler sets it to `null`. -/
theorem c7_amended_order_independence_present (env : Env) (st : AuthState)
    (cache : Option StoredString) (s : SessionRec)
    (hso : env.signOutLocalOk = true)
    (hread : cachedRead s.user.is_cf_meta cache ≠ none) :
    ((onAuthStateChangeRun env (some s) st cache).st.isCfUser =
        (initRun env (some (some s)) st cache).st.isCfUser ∧
      (onAuthStateChangeRun env (some s) st cache).st.loading =
        (initRun env (some (some s)) st cache).st.loading) ∧
    ((onAuthStateChangeRun env (some s)
          (initRun env (some (some s)) st cache).st
          (initRun env (some (some s)) st cache).cache).st.isCfUser =
        (initRun env (some (some s)) st cache).st.isCfUser ∧
      (onAuthStateChangeRun env (some s)
          (initRun env (some (some s)) st cache).st
          (initRun env (some (some s)) st cache).cache).st.loading =
        (initRun env (some (some s)) st cache).st.loading) ∧
    ((initRun env (some (some s))
          (onAuthStateChangeRun env (some s) st cache).st
          (onAuthStateChangeRun env (some s) st cache).cache).st.isCfUser =
        (onAuthStateChangeRun env (some s) st cache).st.isCfUser ∧
      (initRun env (some (some s))
          (onAuthStateChangeRun env (some s) st cache).st
          (onAuthStateChangeRun env (some s) st cache).cache).st.loading =
        (onAuthStateChangeRun env (some s) st cache).st.loading) := by
  obtain ⟨c, hc⟩ := Option.ne_none_iff_exists'.mp hread
  obtain ⟨c', h1, h2, h3⟩ := resolve_stable env s cache c hc
  rw [initRun_present env st cache s c hc hso,
    handlerRun_present env st cache s c hc hso]
  rw [show (resolvedResult env st cache s c).cache = resolveCache env c cache
      from rfl]
  rw [handlerRun_present env (resolvedResult env st cache s c).st
      (resolveCache env c cache) s c' h1 hso,
    initRun_present env (resolvedResult env st cache s c).st
      (resolveCache env c cache) s c' h1 hso]
  simp [resolvedResult, h2]

/-- Witness for C7 amended at a concrete input: a present session with
empty metadata and empty cache under the all-success environment. -/
theorem c7_witness :
    ((onAuthStateChangeRun happyEnv (some plainSession) initialAuthState
          none).st.isCfUser =
        (initRun happyEnv (some (some plainSession)) initialAuthState
          none).st.isCfUser ∧
      (onAuthStateChangeRun happyEnv (some plainSession) initialAuthState
          none).st.loading =
        (initRun happyEnv (some (some plainSession)) initialAuthState
          none).st.loading) ∧
    ((onAuthStateChangeRun happyEnv (some plainSession)
          (initRun happyEnv (some (some plainSession)) initialAuthState none).st
          (initRun happyEnv (some (some plainSession)) initialAuthState
            none).cache).st.isCfUser =
        (initRun happyEnv (some (some plainSession)) initialAuthState
          none).st.isCfUser ∧
      (onAuthStateChangeRun happyEnv (some plainSession)
          (initRun happyEnv (some (some plainSession)) initialAuthState none).st
          (initRun happyEnv (some (some plainSession)) initialAuthState
            none).cache).st.loading =
        (initRun happyEnv (some (some plainSession)) initialAuthState
          none).st.loading) ∧
    ((initRun happyEnv (some (some plainSession))
          (onAuthStateChangeRun happyEnv (some plainSession) initialAuthState
            none).st
          (onAuthStateChangeRun happyEnv (some plainSession) initialAuthState
            none).cache).st.isCfUser =
        (onAuthStateChangeRun happyEnv (some plainSession) initialAuthState
          none).st.isCfUser ∧
      (initRun happyEnv (some (some plainSession))
          (onAuthStateChangeRun happyEnv (some plainSession) initialAuthState
            none).st
          (onAuthStateChangeRun happyEnv (some plainSession) initialAuthState
            none).cache).st.loading =
        (onAuthStateChangeRun happyEnv (some plainSession) initialAuthState
          none).st.loading) :=
  c7_amended_order_independence_present happyEnv initialAuthState none
    plainSession rfl (by decide)

/-- C1 counterexample: with a session, an empty cache, the rpc answering
`true` and `updateUser` rejecting, the bootstrap ends with
`isCfUser = some false` and an empty cache — not with the decision kept
`true` and the cache holding `true` as the claim states. -/
theorem c1_counterexample :
    (initRun metaFailEnv (some (some plainSession)) initialAuthState
        none).st.isCfUser ≠ some true ∧
    (initRun metaFailEnv (some (some plainSession)) initialAuthState
        none).cache ≠ some (StoredString.json (Json.bool true)) ∧
    (initRun metaFailEnv (some (some plainSession)) initialAuthState
        none).st.isCfUser = some false ∧
    (initRun metaFailEnv (some (some plainSession)) initialAuthState
        none).cache = none := by
  decide

/-- C1 amended: the metadata write is not best-effort.  When the rpc
succeeds with a truthy result but `updateUser` rejects (and the
error-path local sign-out resolves), both resolution paths run the
shared catch block: the decision flips to `false` and the cache slot is
removed, exactly as on an rpc failure. -/
theorem c1_amended_metadata_failure_fatal (env : Env) (st : AuthState)
    (cache : Option StoredString) (s : SessionRec) (d : Json)
    (hr : env.rpc = .result false d) (htr : d.truthy = true)
    (hup : env.updateUserOk = false) (hso : env.signOutLocalOk = true)
    (hc : cachedRead s.user.is_cf_meta cache = some Json.null) :
    ((initRun env (some (some s)) st cache).st.isCfUser = some false ∧
      (initRun env (some (some s)) st cache).cache = none ∧
      (initRun env (some (some s)) st cache).rpcCalled = true) ∧
    ((onAuthStateChangeRun env (some s) st cache).st.isCfUser = some false ∧
      (onAuthStateChangeRun env (some s) st cache).cache = none ∧
      (onAuthStateChangeRun env (some s) st cache).rpcCalled = true) := by
  rw [initRun_present env st cache s Json.null hc hso,
    handlerRun_present env st cache s Json.null hc hso]
  simp [resolvedResult, resolveDecision, resolveCache, hr, htr, hup]

/-- Witness for C1 amended at the concrete counterexample input. -/
theorem c1_witness :
    ((initRun metaFailEnv (some (some plainSession)) initialAuthState
        none).st.isCfUser = some false ∧
      (initRun metaFailEnv (some (some plainSession)) initialAuthState
        none).cache = none ∧
      (initRun metaFailEnv (some (some plainSession)) initialAuthState
        none).rpcCalled = true) ∧
    ((onAuthStateChangeRun metaFailEnv (some plainSession) initialAuthState
        none).st.isCfUser = some false ∧
      (onAuthStateChangeRun metaFailEnv (some plainSession) initialAuthState
        none).cache = none ∧
      (onAuthStateChangeRun metaFailEnv (some plainSession) initialAuthState
        none).rpcCalled = true) :=
  c1_amended_metadata_failure_fatal metaFailEnv initialAuthState none
    plainSession (Json.bool true) rfl rfl rfl rfl (by decide)

/-- C2 counterexample: a bootstrap that finds no current session leaves
a stored `true` in the Authorization Cache — the init no-session branch
returns without `localStorage.removeItem`, so the flag is not removed in
every execution in which the session is absent. -/
theorem c2_counterexample :
    (initRun happyEnv (some none) initialAuthState
        (some (StoredString.json (Json.bool true)))).st.session = none ∧
    (initRun happyEnv (some none) initialAuthState
        (some (StoredString.json (Json.bool true)))).cache =
      some (StoredString.json (Json.bool true)) := by
  decide

/-- C2 amended: the cache slot is removed on `signOut`, on a
session-change event delivering no session, and on a failed remote check
whose error-path local sign-out resolves; the bootstrap's no-session
branch, however, leaves the slot untouched. -/
theorem c2_amended_cache_clearing :
    (∀ (st : AuthState) (cache : Option StoredString),
      (signOutRun st cache).2 = none) ∧
    (∀ (env : Env) (st : AuthState) (cache : Option StoredString),
      (onAuthStateChangeRun env none st cache).cache = none) ∧
    (∀ (env : Env) (st : AuthState) (cache : Option StoredString)
        (s : SessionRec), env.signOutLocalOk = true →
      rpcFailed env.rpc = true →
      cachedRead s.user.is_cf_meta cache = some Json.null →
      (initRun env (some (some s)) st cache).cache = none ∧
      (onAuthStateChangeRun env (some s) st cache).cache = none) ∧
    (∀ (env : Env) (st : AuthState) (cache : Option StoredString),
      (initRun env (some none) st cache).cache = cache) := by
  refine ⟨fun st cache => rfl, fun env st cache => rfl, ?_, ?_⟩
  · intro env st cache s hso hfail hc
    rw [initRun_present env st cache s Json.null hc hso,
      handlerRun_present env st cache s Json.null hc hso]
    rcases hr : env.rpc with _ | ⟨he, d⟩
    · simp [resolvedResult, resolveCache, hr]
    · rw [hr] at hfail
      simp only [rpcFailed] at hfail
      simp [resolvedResult, resolveCache, hr, hfail]
  · intro env st cache
    rcases cache with _ | (j | _) <;> rfl

/-- Witness for C2 amended at concrete inputs, including a failing rpc
with a session present. -/
theorem c2_witness :
    (signOutRun initialAuthState
        (some (StoredString.json (Json.bool true)))).2 = none ∧
    (onAuthStateChangeRun happyEnv none initialAuthState
        (some (StoredString.json (Json.bool true)))).cache = none ∧
    (initRun { rpc := .reject, updateUserOk := true, signOutLocalOk := true }
        (some (some plainSession)) initialAuthState none).cache = none ∧
    (initRun happyEnv (some none) initialAuthState
        (some (StoredString.json (Json.bool true)))).cache =
      some (StoredString.json (Json.bool true)) :=
  ⟨c2_amended_cache_clearing.1 initialAuthState
      (some (StoredString.json (Json.bool true))),
    c2_amended_cache_clearing.2.1 happyEnv initialAuthState
      (some (StoredString.json (Json.bool true))),
    (c2_amended_cache_clearing.2.2.1
        { rpc := .reject, updateUserOk := true, signOutLocalOk := true }
        initialAuthState none plainSession rfl rfl (by decide)).1,
    c2_amended_cache_clearing.2.2.2 happyEnv initialAuthState
      (some (StoredString.json (Json.bool true)))⟩

/-- C3 counterexample: with `loading = false`, no user and
`isCfUser = null`, the Route Guard renders a redirect to `/login`, not
the loading indicator — the user-absence check precedes the
unknown-decision check. -/
theorem c3_counterexample :
    protectedRouteRender false none none = Render.redirectLogin ∧
    protectedRouteRender false none none ≠ Render.spinner := by
  decide

/-- C3 amended: the guard renders the loading indicator whenever
`loading` is true, and when `loading` is false with a present user and
an unknown decision; but when `loading` is false and the user is
absent it redirects to `/login` even while the decision is unknown.  It
never renders the protected children while `loading` is true or the
decision is unknown. -/
theorem c3_amended_guard_render (u : UserRec) (cf : Option Bool) :
    protectedRouteRender true (some u) cf = Render.spinner ∧
    protectedRouteRender true none cf = Render.spinner ∧
    protectedRouteRender false (some u) none = Render.spinner ∧
    protectedRouteRender false none none = Render.redirectLogin ∧
    (∀ (l : Bool) (uu : Option UserRec), l = true ∨ cf = none →
      protectedRouteRender l uu cf ≠ Render.content) := by
  refine ⟨rfl, rfl, ?_, rfl, ?_⟩
  · simp [protectedRouteRender]
  · intro l uu h
    rcases h with rfl | rfl
    · simp [protectedRouteRender]
    · cases l <;> rcases uu with _ | v <;> simp [protectedRouteRender]

/-- Witness for C3 amended at a concrete input. -/
theorem c3_witness :
    protectedRouteRender false none none ≠ Render.content :=
  (c3_amended_guard_render plainUser none).2.2.2.2 false none (Or.inr rfl)

/-- C4 counterexample: `signOut` and a session-change event with no
session both set `isCfUser` to `null` (unknown), not to `false`. -/
theorem c4_counterexample :
    (signOutRun signedInState
        (some (StoredString.json (Json.bool true)))).1.isCfUser ≠ some false ∧
    (signOutRun signedInState
        (some (StoredString.json (Json.bool true)))).1.isCfUser = none ∧
    (onAuthStateChangeRun happyEnv none initialAuthState
        none).st.isCfUser ≠ some false ∧
    (onAuthStateChangeRun happyEnv none initialAuthState
        none).st.isCfUser = none := by
  decide

/-- C4 amended: on sign-out and on a session-change event delivering no
session, the in-memory decision transitions to `null` (unknown), never
to `false`; only the bootstrap's no-session branch represents session
absence as `false`. -/
theorem c4_amended_signout_sets_unknown :
    (∀ (st : AuthState) (cache : Option StoredString),
      (signOutRun st cache).1.isCfUser = none) ∧
    (∀ (env : Env) (st : AuthState) (cache : Option StoredString),
      (onAuthStateChangeRun env none st cache).st.isCfUser = none) ∧
    (∀ (env : Env) (st : AuthState) (cache : Option StoredString),
      (initRun env (some none) st cache).st.isCfUser = some false) := by
  refine ⟨fun st cache => rfl, fun env st cache => rfl, ?_⟩
  intro env st cache
  rcases cache with _ | (j | _) <;> rfl

/-- Witness for C4 amended at concrete inputs. -/
theorem c4_witness :
    (signOutRun signedInState
        (some (StoredString.json (Json.bool true)))).1.isCfUser = none ∧
    (onAuthStateChangeRun happyEnv none initialAuthState
        none).st.isCfUser = none ∧
    (initRun happyEnv (some none) initialAuthState
        none).st.isCfUser = some false :=
  ⟨c4_amended_signout_sets_unknown.1 signedInState
      (some (StoredString.json (Json.bool true))),
    c4_amended_signout_sets_unknown.2.1 happyEnv initialAuthState none,
    c4_amended_signout_sets_unknown.2.2 happyEnv initialAuthState none⟩

/-- C5 counterexample: the cached read is not total in the claimed
sense.  A stored `"0"` parses to a non-null value, so the bootstrap
treats it as a definite decision and resolves `isCfUser = some false`
without any remote check; and a malformed stored value makes
`JSON.parse` throw inside the session-change handler, where nothing
catches it, so the exception escapes the handler. -/
theorem c5_counterexample :
    (initRun happyEnv (some (some plainSession)) initialAuthState
        (some (StoredString.json (Json.num 0)))).st.isCfUser = some false ∧
    (initRun happyEnv (some (some plainSession)) initialAuthState
        (some (StoredString.json (Json.num 0)))).rpcCalled = false ∧
    (onAuthStateChangeRun happyEnv (some plainSession) initialAuthState
        (some StoredString.corrupt)).threw = true := by
  decide

/-- C5 amended: for a session whose metadata entry is nullish, a
malformed stored value is treated as a thrown parse error — caught by
the bootstrap's outer catch, which resolves `isCfUser = some false`
without a remote check and leaves the slot in place, but propagating out
of the session-change handler with `isCfUser` untouched; and any
well-formed non-null stored value (boolean or not) is used as the
definite decision via `Boolean` coercion, skipping the remote check. -/
theorem c5_amended_cache_read (env : Env) (st : AuthState) (s : SessionRec)
    (hm : s.user.is_cf_meta = none ∨ s.user.is_cf_meta = some Json.null) :
    ((initRun env (some (some s)) st (some StoredString.corrupt)).st.isCfUser
        = some false ∧
      (initRun env (some (some s)) st
        (some StoredString.corrupt)).st.loading = false ∧
      (initRun env (some (some s)) st
        (some StoredString.corrupt)).rpcCalled = false ∧
      (initRun env (some (some s)) st (some StoredString.corrupt)).cache =
        some StoredString.corrupt) ∧
    ((onAuthStateChangeRun env (some s) st
        (some StoredString.corrupt)).threw = true ∧
      (onAuthStateChangeRun env (some s) st
        (some StoredString.corrupt)).st.isCfUser = st.isCfUser) ∧
    (∀ j : Json, j ≠ Json.null →
      (initRun env (some (some s)) st
          (some (StoredString.json j))).st.isCfUser = some j.truthy ∧
      (initRun env (some (some s)) st
          (some (StoredString.json j))).rpcCalled = false ∧
      (onAuthStateChangeRun env (some s) st
          (some (StoredString.json j))).st.isCfUser = some j.truthy ∧
      (onAuthStateChangeRun env (some s) st
          (some (StoredString.json j))).rpcCalled = false) := by
  have hc : cachedRead s.user.is_cf_meta (some StoredString.corrupt) = none := by
    rcases hm with hm | hm <;> simp [cachedRead, hm, rawCacheParse, jsonParse]
  refine ⟨?_, ?_, ?_⟩
  · simp only [initRun, Option.map_some']
    rw [show ((some s : Option SessionRec).bind (·.user.is_cf_meta))
        = s.user.is_cf_meta from rfl, hc]
    exact ⟨rfl, rfl, rfl, rfl⟩
  · simp only [onAuthStateChangeRun, Option.map_some']
    rw [hc]
    exact ⟨rfl, rfl⟩
  · intro j hj
    have hcj : cachedRead s.user.is_cf_meta (some (StoredString.json j))
        = some j := by
      rcases hm with hm | hm <;>
        simp [cachedRead, hm, rawCacheParse, jsonParse]
    rw [initRun_cachedHit env st (some (StoredString.json j)) s j hcj hj,
      handlerRun_cachedHit env st (some (StoredString.json j)) s j hcj hj]
    simp [resolvedResult, resolveDecision, hj]

/-- Witness for C5 amended at concrete inputs: the stored value `0` and
a corrupt stored value, with a metadata-free session. -/
theorem c5_witness :
    (initRun happyEnv (some (some plainSession)) initialAuthState
        (some (StoredString.json (Json.num 0)))).st.isCfUser =
      some (Json.num 0).truthy ∧
    (onAuthStateChangeRun happyEnv (some plainSession) initialAuthState
        (some StoredString.corrupt)).threw = true :=
  ⟨((c5_amended_cache_read happyEnv initialAuthState plainSession
        (Or.inl rfl)).2.2 (Json.num 0) (by decide)).1,
    (c5_amended_cache_read happyEnv initialAuthState plainSession
        (Or.inl rfl)).2.1.1⟩

/-- C9: after a bootstrap on a session whose metadata carries
`is_cf = false`, the state has a present user, `loading = false` and
`isCfUser = some false`; at that state the Route Guard renders a
redirect to `/login` while the Login page (which tests only user
presence) renders a redirect to `/dashboard` — a redirect cycle in which
neither a protected page nor the login form is rendered. -/
theorem c9_redirect_cycle (env : Env) (st : AuthState)
    (cache : Option StoredString) (s : SessionRec)
    (hm : s.user.is_cf_meta = some (Json.bool false)) :
    (initRun env (some (some s)) st cache).st.user = some s.user ∧
    (initRun env (some (some s)) st cache).st.loading = false ∧
    (initRun env (some (some s)) st cache).st.isCfUser = some false ∧
    protectedRouteRender (initRun env (some (some s)) st cache).st.loading
        (initRun env (some (some s)) st cache).st.user
        (initRun env (some (some s)) st cache).st.isCfUser =
      Render.redirectLogin ∧
    loginPageRender (initRun env (some (some s)) st cache).st.user =
      Render.redirectDashboard := by
  have hc : cachedRead s.user.is_cf_meta cache = some (Json.bool false) := by
    simp [cachedRead, hm]
  rw [initRun_cachedHit env st cache s (Json.bool false) hc (by simp)]
  simp [resolvedResult, resolveDecision, Json.truthy,
    protectedRouteRender, loginPageRender]

/-- Witness for C9 at a concrete input. -/
theorem c9_witness :
    (initRun happyEnv (some (some nonCfSession)) initialAuthState
        none).st.user = some nonCfSession.user ∧
    (initRun happyEnv (some (some nonCfSession)) initialAuthState
        none).st.loading = false ∧
    (initRun happyEnv (some (some nonCfSession)) initialAuthState
        none).st.isCfUser = some false ∧
    protectedRouteRender
        (initRun happyEnv (some (some nonCfSession)) initialAuthState
          none).st.loading
        (initRun happyEnv (some (some nonCfSession)) initialAuthState
          none).st.user
        (initRun happyEnv (some (some nonCfSession)) initialAuthState
          none).st.isCfUser = Render.redirectLogin ∧
    loginPageRender
        (initRun happyEnv (some (some nonCfSession)) initialAuthState
          none).st.user = Render.redirectDashboard :=
  c9_redirect_cycle happyEnv initialAuthState none nonCfSession rfl

/-- In a partnership list whose (restaurant, osc) key projection is
duplicate-free, at most one row matches any given key. -/
theorem countP_key_le_one (r o : String) (rows : List Partnership)
    (h : (rows.map fun p => (p.restaurant_id, p.osc_id)).Nodup) :
    rows.countP (fun p => p.restaurant_id == r && p.osc_id == o) ≤ 1 := by
  induction rows with
  | nil => simp
  | cons p t ih =>
    simp only [List.map_cons, List.nodup_cons] at h
    obtain ⟨hnot, ht⟩ := h
    rw [List.countP_cons]
    by_cases hp : (p.restaurant_id == r && p.osc_id == o) = true
    · have hz : t.countP (fun q => q.restaurant_id == r && q.osc_id == o) = 0 := by
        rw [List.countP_eq_zero]
        intro q hq hqk
        apply hnot
        have hqr : q.restaurant_id = r ∧ q.osc_id = o := by
          simpa [Bool.and_eq_true, beq_iff_eq] using hqk
        have hpr : p.restaurant_id = r ∧ p.osc_id = o := by
          simpa [Bool.and_eq_true, beq_iff_eq] using hp
        refine List.mem_map.mpr ⟨q, hq, ?_⟩
        rw [hqr.1, hqr.2, hpr.1, hpr.2]
      simp [hz, hp]
    · simp only [hp, if_false]
      simpa using ih ht

/-- Setting the favorite reduces, row by row, to selecting the rows
whose key matches the toggled partnership. -/
theorem favCount_toggle_true (r o : String) (rows : List Partnership) :
    favCount r (toggleFavoriteRun r o true rows) =
      rows.countP (fun p => p.restaurant_id == r && p.osc_id == o) := by
  rw [favCount, toggleFavoriteRun]
  simp only [if_pos trivial, List.map_map, ← List.countP_eq_length_filter,
    List.countP_map]
  apply List.countP_congr
  intro p _
  by_cases h1 : p.restaurant_id = r
  · by_cases h2 : p.osc_id = o
    · simp [Function.comp, h1, h2]
    · simp [Function.comp, h1, h2]
  · simp [Function.comp, h1]

/-- Clearing a favorite flag never increases the favorite count. -/
theorem favCount_toggle_false_le (r o : String) (rows : List Partnership) :
    favCount r (toggleFavoriteRun r o false rows) ≤ favCount r rows := by
  rw [favCount, favCount, toggleFavoriteRun]
  simp only [if_neg (by simp : ¬False), ← List.countP_eq_length_filter,
    List.countP_map]
  apply List.countP_mono_left
  intro p _ hq
  by_cases hc : p.restaurant_id = r ∧ p.osc_id = o
  · simp [Function.comp, hc.1, hc.2] at hq
  · simp only [Function.comp, if_neg hc] at hq
    exact hq

/-- C10: toggling a partnership favorite with `isFavorite = true` first
clears `is_favorite` on every partnership of the restaurant and then
sets it on the chosen OSC, so afterwards the restaurant has at most one
favorite (given that (restaurant, osc) pairs are unique, as the table's
key makes them); toggling with `isFavorite = false` only clears the
chosen row's flag and so preserves the at-most-one-favorite invariant. -/
theorem c10_at_most_one_favorite (r o : String) (rows : List Partnership)
    (hkeys : (rows.map fun p => (p.restaurant_id, p.osc_id)).Nodup)
    (hpre : atMostOneFavorite r rows) :
    atMostOneFavorite r (toggleFavoriteRun r o true rows) ∧
    atMostOneFavorite r (toggleFavoriteRun r o false rows) := by
  constructor
  · rw [atMostOneFavorite, favCount_toggle_true]
    exact countP_key_le_one r o rows hkeys
  · rw [atMostOneFavorite]
    exact le_trans (favCount_toggle_false_le r o rows) hpre

/-- Witness for C10 at a concrete input: two partnerships of one
restaurant, one currently favorite. -/
theorem c10_witness :
    atMostOneFavorite "r1"
      (toggleFavoriteRun "r1" "o2" true
        [{ restaurant_id := "r1", osc_id := "o1", is_favorite := true },
         { restaurant_id := "r1", osc_id := "o2", is_favorite := false }]) ∧
    atMostOneFavorite "r1"
      (toggleFavoriteRun "r1" "o2" false
        [{ restaurant_id := "r1", osc_id := "o1", is_favorite := true },
         { restaurant_id := "r1", osc_id := "o2", is_favorite := false }]) :=
  c10_at_most_one_favorite "r1" "o2"
    [{ restaurant_id := "r1", osc_id := "o1", is_favorite := true },
     { restaurant_id := "r1", osc_id := "o2", is_favorite := false }]
    (by decide) (by unfold atMostOneFavorite; decide)
